import Mathlib

/-!
Shallow embedding of the BlinkStick device-control library (blinkstick.go).

A USB control transfer is modelled by a `ControlRequest` (the setup packet
plus the byte buffer handed to the transport) and a `USBResult` (bytes
transferred, the response bytes the transport wrote, and its error flag).
A `BlinkStick` carries the transport as a function together with the fields
of the Go struct.  Every operation returns the updated device state, the
list of control transfers it issued (its trace), and its result, so that
wire-level claims can be stated about the trace.  Go byte values are
modelled as `Nat` (callers pass values below 256), Go `int` as `Int`,
Go byte slices as `List Nat`.
-/

set_option maxRecDepth 100000

namespace BlinkStickGo

/-- Result of one call to the transport's Control primitive: bytes
transferred, the bytes the device wrote back (for IN transfers), and the
error flag. -/
structure USBResult where
  n : Int
  buf : List Nat
  err : Bool
  deriving DecidableEq, Repr

/-- One USB control transfer as issued by the library: the fixed setup
fields and the data buffer passed to the transport (for IN transfers this
is the freshly allocated zero buffer, for OUT transfers the payload). -/
structure ControlRequest where
  requestType : Nat
  request : Nat
  value : Nat
  index : Nat
  data : List Nat
  deriving DecidableEq, Repr

/-- The BlinkStick struct of the source, with the transport attached so
that `device.Control` becomes a function call. -/
structure BlinkStick where
  transport : ControlRequest → USBResult
  Serial : String
  Inverse : Bool
  RGB : Bool
  ledCount : Int

/-- Writing a transport response into a freshly allocated zero buffer of
length `len`: the response bytes, truncated to the buffer, with the
untouched zero bytes behind them. -/
def fillBuffer (len : Nat) (resp : List Nat) : List Nat :=
  resp.take len ++ List.replicate (len - resp.length) 0

/-- The trace of control transfers an operation issued. -/
def traceOf {α : Type} (o : BlinkStick × List ControlRequest × α) : List ControlRequest :=
  o.2.1

/-- The result an operation returned. -/
def resultOf {α : Type} (o : BlinkStick × List ControlRequest × α) : α :=
  o.2.2

/-- The device state after an operation. -/
def stateOf {α : Type} (o : BlinkStick × List ControlRequest × α) : BlinkStick :=
  o.1

/-- GetLEDCount of the source: on an unqueried handle (`ledCount = 0`)
issues the 0xA0/0x01/0x81 transfer with a 2-byte buffer; on error or a
short response returns -1 without touching the state; otherwise caches
the second response byte.  A cached nonzero count is returned without a
transfer. -/
def GetLEDCount (stk : BlinkStick) : BlinkStick × List ControlRequest × Int :=
  if stk.ledCount = 0 then
    let req : ControlRequest := ⟨0x80 ||| 0x20, 0x01, 0x81, 0x00, List.replicate 2 0⟩
    let res := stk.transport req
    if res.err = true ∨ res.n < 2 then
      (stk, [req], -1)
    else
      let buffer := fillBuffer 2 res.buf
      let c : Int := ((buffer.getD 1 0 : Nat) : Int)
      ({ stk with ledCount := c }, [req], c)
  else
    (stk, [], stk.ledCount)

/-- The source's razor thin wrapper around device.Control: issues the
transfer and returns its error flag. -/
def control (stk : BlinkStick) (requestType request val idx : Nat) (data : List Nat) :
    BlinkStick × List ControlRequest × Bool :=
  let req : ControlRequest := ⟨requestType, request, val, idx, data⟩
  (stk, [req], (stk.transport req).err)

/-- GetName of the source: 33-byte IN transfer with value 0x02; on error
the empty string, otherwise the full buffer with one zero byte appended.
The Go string is modelled by its byte list. -/
def GetName (stk : BlinkStick) : BlinkStick × List ControlRequest × List Nat :=
  let req : ControlRequest := ⟨0x80 ||| 0x20, 0x01, 0x02, 0x00, List.replicate 33 0⟩
  let res := stk.transport req
  if res.err = true then
    (stk, [req], [])
  else
    (stk, [req], fillBuffer 33 res.buf ++ [0])

/-- GetInfo of the source: identical to GetName with value 0x03. -/
def GetInfo (stk : BlinkStick) : BlinkStick × List ControlRequest × List Nat :=
  let req : ControlRequest := ⟨0x80 ||| 0x20, 0x01, 0x03, 0x00, List.replicate 33 0⟩
  let res := stk.transport req
  if res.err = true then
    (stk, [req], [])
  else
    (stk, [req], fillBuffer 33 res.buf ++ [0])

/-- SetName of the source: OUT transfer 0x20/0x09 with value 0x02 and the
raw name bytes as payload. -/
def SetName (stk : BlinkStick) (name : List Nat) : BlinkStick × List ControlRequest × Bool :=
  control stk 0x20 0x09 0x02 0x00 name

/-- SetInfo of the source: OUT transfer 0x20/0x09 with value 0x03 and the
raw info bytes as payload. -/
def SetInfo (stk : BlinkStick) (info : List Nat) : BlinkStick × List ControlRequest × Bool :=
  control stk 0x20 0x09 0x03 0x00 info

/-- SetRGB of the source: complements the triple when Inverse is set, then
issues 0x20/0x09 value 0x01 with payload [0, r, g, b].  Both branches of
the source's conditional produce the same transfer; the conditional is
kept to mirror the source. -/
def SetRGB (stk : BlinkStick) (channel index r g b : Nat) :
    BlinkStick × List ControlRequest × Bool :=
  let r := if stk.Inverse then 255 - r else r
  let g := if stk.Inverse then 255 - g else g
  let b := if stk.Inverse then 255 - b else b
  if index = 0 ∧ channel = 0 then
    control stk 0x20 0x09 0x01 0x00 [0, r, g, b]
  else
    control stk 0x20 0x09 0x01 0x00 [0, r, g, b]

/-- SetRandom of the source: maps the top three bytes of a 32-bit random
draw to r, g, b and delegates to SetRGB.  The draw of rand.Uint32 is
passed in explicitly as `rColor`. -/
def SetRandom (stk : BlinkStick) (channel index rColor : Nat) :
    BlinkStick × List ControlRequest × Bool :=
  SetRGB stk channel index ((rColor >>> 24) % 256) ((rColor >>> 16) % 256) ((rColor >>> 8) % 256)

/-- getReportID of the source: maps a byte count to (report id, maxLEDs)
by ordered range checks; the fallthrough default of the switch gives
(9, 64) for every count above 96. -/
def getReportID (count : Int) : Nat × Nat :=
  if count ≤ 8 * 3 then (6, 8)
  else if count ≤ 16 * 3 then (7, 16)
  else if count ≤ 32 * 3 then (8, 32)
  else (9, 64)

/-- SetLEDData of the source: selects the bucket from the data length and
issues one OUT transfer 0x20/0x09 with the report id as value and payload
[0, channel] followed by maxLEDs*3 bytes, each taken from data when in
range and 0 otherwise (`data.getD i 0` is Go's
`if len(data) > i then data[i] else 0`). -/
def SetLEDData (stk : BlinkStick) (channel : Nat) (data : List Nat) :
    BlinkStick × List ControlRequest × Bool :=
  let rm := getReportID (data.length : Int)
  let report := 0 :: channel :: (List.range (rm.2 * 3)).map (fun i => data.getD i 0)
  control stk 0x20 0x09 rm.1 0x00 report

/-- Go's 64-bit `int` arithmetic: results wrap to the two's-complement
range [-2^63, 2^63). -/
def int64wrap (x : Int) : Int :=
  (x + 2 ^ 63) % 2 ^ 64 - 2 ^ 63

/-- GetLEDData of the source: selects the bucket from count*3, allocates
a 2 + maxLEDs*3 buffer, issues the IN transfer with the report id as
value, and returns buffer[2 : 2+count*3] together with the transfer's
error.  The source computes count*3 and 2+count*3 on Go's 64-bit int,
which wraps on overflow, so both products go through `int64wrap`.  Go's
slice expression aborts with a bounds failure when the computed bounds
are invalid (high below 2 or beyond the buffer); that abort is modelled
by `none`.  The transfer has already been issued when the slice is
evaluated, so the trace holds the request either way. -/
def GetLEDData (stk : BlinkStick) (count : Int) :
    BlinkStick × List ControlRequest × Option (List Nat × Bool) :=
  let c3 := int64wrap (count * 3)
  let rm := getReportID c3
  let bufLen := 2 + rm.2 * 3
  let req : ControlRequest := ⟨0x80 ||| 0x20, 0x01, rm.1, 0x00, List.replicate bufLen 0⟩
  let res := stk.transport req
  let buffer := fillBuffer bufLen res.buf
  let hi := int64wrap (2 + c3)
  if 2 ≤ hi ∧ hi ≤ (bufLen : Int) then
    (stk, [req], some ((buffer.drop 2).take (hi - 2).toNat, res.err))
  else
    (stk, [req], none)

/-- SetAllRGB of the source: queries GetLEDCount; on a negative count
falls back to a single SetRGB with index 0; otherwise builds
bytes.Repeat([r,g,b], count) and delegates to SetLEDData.  The traces of
the two steps are concatenated. -/
def SetAllRGB (stk : BlinkStick) (channel r g b : Nat) :
    BlinkStick × List ControlRequest × Bool :=
  let q := GetLEDCount stk
  if q.2.2 < 0 then
    let s := SetRGB q.1 channel 0 r g b
    (s.1, q.2.1 ++ s.2.1, s.2.2)
  else
    let data := (List.replicate q.2.2.toNat [r, g, b]).flatten
    let s := SetLEDData q.1 channel data
    (s.1, q.2.1 ++ s.2.1, s.2.2)

/-- A transport that always succeeds and fills the whole buffer with 1s. -/
def okTransport : ControlRequest → USBResult :=
  fun req => ⟨(req.data.length : Int), List.replicate req.data.length 1, false⟩

/-- A transport that succeeds on the 2-byte count read but reports the
count byte as 0. -/
def zeroCountTransport : ControlRequest → USBResult :=
  fun _ => ⟨2, [0, 0], false⟩

/-- A transport that always reports an error. -/
def errTransport : ControlRequest → USBResult :=
  fun _ => ⟨0, [], true⟩

/-- A fresh device over the succeeding transport. -/
def okStick : BlinkStick :=
  { transport := okTransport, Serial := "", Inverse := false, RGB := false, ledCount := 0 }

/-- A fresh device with inverse colors enabled. -/
def invStick : BlinkStick :=
  { okStick with Inverse := true }

/-- A fresh device whose transport reports an LED count of 0. -/
def zeroCountStick : BlinkStick :=
  { okStick with transport := zeroCountTransport }

/-- A fresh device over the failing transport. -/
def errStick : BlinkStick :=
  { okStick with transport := errTransport }

/-- The filled buffer always has exactly the allocated length. -/
theorem fillBuffer_length (len : Nat) (resp : List Nat) :
    (fillBuffer len resp).length = len := by
  simp [fillBuffer]
  omega

/-- The state GetLEDCount leaves behind differs from the input state at
most in the cached count; in particular the transport is unchanged. -/
theorem GetLEDCount_transport (stk : BlinkStick) :
    ((GetLEDCount stk).1).transport = stk.transport := by
  simp only [GetLEDCount]
  split_ifs <;> rfl

/-- C1: every operation issues its control transfer with exactly the setup
parameters of the spec's wire-protocol table: GetLEDCount 0xA0/0x01/0x81
with a 2-byte in-buffer, GetName and GetInfo 0xA0/0x01 with value 0x02 or
0x03 and a 33-byte in-buffer, SetName and SetInfo 0x20/0x09 with value
0x02 or 0x03, SetRGB 0x20/0x09 value 0x01 with data [0,r,g,b],
GetLEDData and SetLEDData 0xA0/0x01 and 0x20/0x09 with the selected
report id (in 6..9) as value; index is 0x00 throughout. -/
theorem wire_protocol (stk : BlinkStick) (h0 : stk.ledCount = 0)
    (hinv : stk.Inverse = false) (name info data : List Nat)
    (channel index r g b : Nat) (count : Int) :
    traceOf (GetLEDCount stk) = [⟨0xA0, 0x01, 0x81, 0x00, List.replicate 2 0⟩]
    ∧ traceOf (GetName stk) = [⟨0xA0, 0x01, 0x02, 0x00, List.replicate 33 0⟩]
    ∧ traceOf (GetInfo stk) = [⟨0xA0, 0x01, 0x03, 0x00, List.replicate 33 0⟩]
    ∧ traceOf (SetName stk name) = [⟨0x20, 0x09, 0x02, 0x00, name⟩]
    ∧ traceOf (SetInfo stk info) = [⟨0x20, 0x09, 0x03, 0x00, info⟩]
    ∧ traceOf (SetRGB stk channel index r g b) = [⟨0x20, 0x09, 0x01, 0x00, [0, r, g, b]⟩]
    ∧ traceOf (GetLEDData stk count) =
        [⟨0xA0, 0x01, (getReportID (int64wrap (count * 3))).1, 0x00,
          List.replicate (2 + (getReportID (int64wrap (count * 3))).2 * 3) 0⟩]
    ∧ traceOf (SetLEDData stk channel data) =
        [⟨0x20, 0x09, (getReportID (data.length : Int)).1, 0x00,
          0 :: channel :: (List.range ((getReportID (data.length : Int)).2 * 3)).map
            (fun i => data.getD i 0)⟩]
    ∧ (getReportID (int64wrap (count * 3))).1 ∈ [6, 7, 8, 9] := by
  refine ⟨?_, ?_, ?_, rfl, rfl, ?_, ?_, rfl, ?_⟩
  · simp only [GetLEDCount, traceOf, if_pos h0]
    split <;> rfl
  · simp only [GetName, traceOf]
    split <;> rfl
  · simp only [GetInfo, traceOf]
    split <;> rfl
  · simp only [SetRGB, hinv, if_false, control, traceOf, Bool.false_eq_true]
    split <;> rfl
  · simp only [GetLEDData, traceOf]
    split <;> rfl
  · simp only [getReportID]
    split_ifs <;> simp

/-- Witness for C1 at a fresh device over the succeeding transport. -/
theorem wire_protocol_witness :
    traceOf (GetLEDCount okStick) = [⟨0xA0, 0x01, 0x81, 0x00, List.replicate 2 0⟩] :=
  (wire_protocol okStick rfl rfl [] [] [] 0 0 1 2 3 5).1

/-- C2: the report-ID bucket algorithm maps byte counts in
[−∞,24], [25,48], [49,96], (96,∞) to (report id, capacity)
(6,8), (7,16), (8,32), (9,64) respectively. -/
theorem getReportID_buckets (c : Int) :
    (c ≤ 24 → getReportID c = (6, 8))
    ∧ (25 ≤ c ∧ c ≤ 48 → getReportID c = (7, 16))
    ∧ (49 ≤ c ∧ c ≤ 96 → getReportID c = (8, 32))
    ∧ (96 < c → getReportID c = (9, 64)) := by
  unfold getReportID
  refine ⟨fun h => ?_, fun h => ?_, fun h => ?_, fun h => ?_⟩ <;>
    split_ifs <;> first | rfl | omega

/-- Witness for C2: the bucket theorem evaluated at one point of each
range. -/
theorem getReportID_buckets_witness :
    getReportID 24 = (6, 8) ∧ getReportID 25 = (7, 16)
    ∧ getReportID 96 = (8, 32) ∧ getReportID 97 = (9, 64) :=
  ⟨(getReportID_buckets 24).1 (by decide),
   (getReportID_buckets 25).2.1 (by decide),
   (getReportID_buckets 96).2.2.1 (by decide),
   (getReportID_buckets 97).2.2.2 (by decide)⟩

/-- C3 counterexample: with Inverse set, SetLEDData does not complement
the bytes it sends: on data [255,255,255] the outgoing payload keeps the
raw 255s and is not the complemented [0,0,0] payload the claim demands. -/
theorem setLEDData_ignores_inverse :
    traceOf (SetLEDData invStick 0 [255, 255, 255]) =
      [⟨0x20, 0x09, 6, 0x00, 0 :: 0 :: ([255, 255, 255] ++ List.replicate 21 0)⟩]
    ∧ ¬ traceOf (SetLEDData invStick 0 [255, 255, 255]) =
      [⟨0x20, 0x09, 6, 0x00, 0 :: 0 :: ([0, 0, 0] ++ List.replicate 21 0)⟩] := by
  decide

/-- C3 (amended): with Inverse set, SetRGB complements the triple before
transmission — in particular SetRGB(c,i,255,255,255) sends exactly
[0,0,0,0] — while SetLEDData (and hence the SetAllRGB buffer path)
transmits its data bytes unmodified (inverse support there is an
acknowledged TODO in the source). -/
theorem inverse_semantics (stk : BlinkStick) (hinv : stk.Inverse = true)
    (channel index r g b : Nat) (data : List Nat) :
    traceOf (SetRGB stk channel index r g b) =
      [⟨0x20, 0x09, 0x01, 0x00, [0, 255 - r, 255 - g, 255 - b]⟩]
    ∧ traceOf (SetRGB stk channel index 255 255 255) =
      [⟨0x20, 0x09, 0x01, 0x00, [0, 0, 0, 0]⟩]
    ∧ traceOf (SetLEDData stk channel data) =
      [⟨0x20, 0x09, (getReportID (data.length : Int)).1, 0x00,
        0 :: channel :: (List.range ((getReportID (data.length : Int)).2 * 3)).map
          (fun i => data.getD i 0)⟩] := by
  refine ⟨?_, ?_, rfl⟩
  · simp only [SetRGB, hinv, if_true, control, traceOf]
    split <;> rfl
  · simp only [SetRGB, hinv, if_true, control, traceOf]
    split <;> rfl

/-- Witness for C3's amended theorem at the inverse device. -/
theorem inverse_semantics_witness :
    traceOf (SetRGB invStick 0 0 255 255 255) =
      [⟨0x20, 0x09, 0x01, 0x00, [0, 0, 0, 0]⟩] :=
  (inverse_semantics invStick rfl 0 0 255 255 255 []).2.1

/-- C4 counterexample: a transport that successfully reports a count of 0
(no error, 2 bytes transferred, count byte 0) populates the cache with the
non-negative value 0, yet the second GetLEDCount call issues another
control transfer — the transfer count reaches 2, not 1. -/
theorem ledCount_zero_requeried :
    resultOf (GetLEDCount zeroCountStick) = 0
    ∧ (zeroCountStick.transport ⟨0xA0, 0x01, 0x81, 0x00, List.replicate 2 0⟩).err = false
    ∧ (zeroCountStick.transport ⟨0xA0, 0x01, 0x81, 0x00, List.replicate 2 0⟩).n = 2
    ∧ traceOf (GetLEDCount zeroCountStick) ≠ []
    ∧ traceOf (GetLEDCount (stateOf (GetLEDCount zeroCountStick))) ≠ [] := by
  decide

/-- C4 (amended): once GetLEDCount has returned a positive count, a second
call returns the same value and issues no further control transfer (the
cached value is immutable for the handle's lifetime). -/
theorem ledCount_cached (stk : BlinkStick) (h : 0 < resultOf (GetLEDCount stk)) :
    resultOf (GetLEDCount (stateOf (GetLEDCount stk))) = resultOf (GetLEDCount stk)
    ∧ traceOf (GetLEDCount (stateOf (GetLEDCount stk))) = [] := by
  simp only [GetLEDCount, resultOf, stateOf, traceOf] at *
  split_ifs at * with h0 h1 h2 <;> first
    | omega
    | (constructor <;> rfl)
    | simp_all

/-- Witness for C4's amended theorem: the succeeding transport reports a
count of 1, and the second call is silent. -/
theorem ledCount_cached_witness :
    traceOf (GetLEDCount (stateOf (GetLEDCount okStick))) = [] :=
  (ledCount_cached okStick (by decide)).2

/-- Reading `n` positions out of `data` with default 0 is `data` followed
by zeros, whenever `data` has at most `n` elements. -/
theorem range_map_getD (data : List Nat) (n : Nat) (h : data.length ≤ n) :
    (List.range n).map (fun i => data.getD i 0) =
      data ++ List.replicate (n - data.length) 0 := by
  induction data generalizing n with
  | nil =>
      simp [List.getD]
  | cons d ds ih =>
      cases n with
      | zero => simp at h
      | succ m =>
          have h' : ds.length ≤ m := by simpa using h
          have hfun : ((fun i => (d :: ds).getD i 0) ∘ Nat.succ) =
              fun i => ds.getD i 0 := by
            funext i
            simp [List.getD]
          rw [List.range_succ_eq_map, List.map_cons, List.map_map, hfun, ih m h']
          simp [List.getD, Nat.succ_sub_succ]

/-- A data length of at most 192 bytes fits in the bucket selected for it. -/
theorem length_le_bucket (len : Nat) (h : len ≤ 192) :
    len ≤ (getReportID (len : Int)).2 * 3 := by
  unfold getReportID
  split_ifs with h1 h2 h3 <;> simp only <;> omega

/-- C5 counterexample: on a 195-byte slice (65 LEDs) the bucket holds only
192 data bytes, and SetLEDData truncates the slice to the first 192 bytes
instead of sending all data bytes zero-padded as the claim demands. -/
theorem setLEDData_truncates :
    traceOf (SetLEDData okStick 0 (List.replicate 195 1)) =
      [⟨0x20, 0x09, 9, 0x00, 0 :: 0 :: List.replicate 192 1⟩]
    ∧ ¬ traceOf (SetLEDData okStick 0 (List.replicate 195 1)) =
      [⟨0x20, 0x09, 9, 0x00,
        0 :: 0 :: (List.replicate 195 1 ++
          List.replicate ((getReportID 195).2 * 3 - 195) 0)⟩] := by
  decide

/-- C5 (amended): for every data slice of at most 192 bytes (the largest
bucket), SetLEDData issues exactly one output transfer whose payload is
[0, channel] followed by the data zero-padded to maxLEDs*3 bytes, total
length 2 + maxLEDs*3, and no padding is appended when the data exactly
fills the bucket; a longer slice is truncated to the first 192 bytes. -/
theorem setLEDData_pads (stk : BlinkStick) (channel : Nat) (data : List Nat)
    (h : data.length ≤ 192) :
    traceOf (SetLEDData stk channel data) =
      [⟨0x20, 0x09, (getReportID (data.length : Int)).1, 0x00,
        0 :: channel :: (data ++
          List.replicate ((getReportID (data.length : Int)).2 * 3 - data.length) 0)⟩]
    ∧ (0 :: channel :: (data ++
          List.replicate ((getReportID (data.length : Int)).2 * 3 - data.length) 0)).length
        = 2 + (getReportID (data.length : Int)).2 * 3
    ∧ (data.length = (getReportID (data.length : Int)).2 * 3 →
        traceOf (SetLEDData stk channel data) =
          [⟨0x20, 0x09, (getReportID (data.length : Int)).1, 0x00,
            0 :: channel :: data⟩]) := by
  have hb := length_le_bucket data.length h
  have htr : traceOf (SetLEDData stk channel data) =
      [⟨0x20, 0x09, (getReportID (data.length : Int)).1, 0x00,
        0 :: channel :: (data ++
          List.replicate ((getReportID (data.length : Int)).2 * 3 - data.length) 0)⟩] := by
    simp only [SetLEDData, control, traceOf]
    rw [range_map_getD data _ hb]
  refine ⟨htr, ?_, fun hexact => ?_⟩
  · simp only [List.length_cons, List.length_append, List.length_replicate]
    omega
  · have hz : (getReportID (data.length : Int)).2 * 3 - data.length = 0 := by omega
    rw [htr, hz]
    simp

/-- Witness for C5's amended theorem on a 3-byte slice, padded to the
8-LED bucket. -/
theorem setLEDData_pads_witness :
    traceOf (SetLEDData okStick 0 [1, 2, 3]) =
      [⟨0x20, 0x09, (getReportID ((3 : Nat) : Int)).1, 0x00,
        0 :: 0 :: ([1, 2, 3] ++
          List.replicate ((getReportID ((3 : Nat) : Int)).2 * 3 - 3) 0)⟩] :=
  (setLEDData_pads okStick 0 [1, 2, 3] (by decide)).1

/-- Flattening n copies of a list multiplies the length. -/
theorem flatten_replicate_length {α : Type} (n : Nat) (l : List α) :
    ((List.replicate n l).flatten).length = n * l.length := by
  induction n with
  | zero => simp
  | succ m ih => simp [List.replicate_succ, ih, Nat.succ_mul, Nat.add_comm]

/-- C6: when GetLEDCount reports a non-negative count N, SetAllRGB hands
SetLEDData a buffer of N repetitions of (r,g,b) — exactly 3N bytes — and
concatenates the traces; on a negative count it instead performs a single
SetRGB call with index 0. -/
theorem setAllRGB_delegates (stk : BlinkStick) (channel r g b : Nat) :
    (0 ≤ resultOf (GetLEDCount stk) →
      SetAllRGB stk channel r g b =
        (stateOf (SetLEDData (stateOf (GetLEDCount stk)) channel
            ((List.replicate (resultOf (GetLEDCount stk)).toNat [r, g, b]).flatten)),
         traceOf (GetLEDCount stk) ++
           traceOf (SetLEDData (stateOf (GetLEDCount stk)) channel
             ((List.replicate (resultOf (GetLEDCount stk)).toNat [r, g, b]).flatten)),
         resultOf (SetLEDData (stateOf (GetLEDCount stk)) channel
           ((List.replicate (resultOf (GetLEDCount stk)).toNat [r, g, b]).flatten)))
      ∧ ((List.replicate (resultOf (GetLEDCount stk)).toNat [r, g, b]).flatten).length
          = 3 * (resultOf (GetLEDCount stk)).toNat)
    ∧ (resultOf (GetLEDCount stk) < 0 →
      SetAllRGB stk channel r g b =
        (stateOf (SetRGB (stateOf (GetLEDCount stk)) channel 0 r g b),
         traceOf (GetLEDCount stk) ++
           traceOf (SetRGB (stateOf (GetLEDCount stk)) channel 0 r g b),
         resultOf (SetRGB (stateOf (GetLEDCount stk)) channel 0 r g b))) := by
  constructor
  · intro hpos
    simp only [resultOf] at hpos
    constructor
    · simp only [SetAllRGB, stateOf, traceOf, resultOf]
      rw [if_neg (by omega)]
    · rw [flatten_replicate_length]
      simp [Nat.mul_comm]
  · intro hneg
    simp only [resultOf] at hneg
    simp only [SetAllRGB, stateOf, traceOf, resultOf]
    rw [if_pos hneg]

/-- Witness for C6: the succeeding transport reports one LED, and the
repeated buffer has exactly 3 bytes. -/
theorem setAllRGB_delegates_witness :
    ((List.replicate (resultOf (GetLEDCount okStick)).toNat [5, 6, 7]).flatten).length
      = 3 * (resultOf (GetLEDCount okStick)).toNat :=
  ((setAllRGB_delegates okStick 0 5 6 7).1 (by decide)).2

/-- Wrapping is the identity on values already inside the two's-complement
64-bit range. -/
theorem int64wrap_eq {x : Int} (h1 : -(2 ^ 63) ≤ x) (h2 : x < 2 ^ 63) :
    int64wrap x = x := by
  unfold int64wrap
  omega

/-- C7 counterexample: the source computes count*3 and 2+count*3 on Go's
wrapping 64-bit int.  At count = 6148914691236517206 (well above 64) the
product 3*count = 2^64 + 2 wraps to 2, the (6, 8) bucket is selected, the
buffer is 26 bytes, and buffer[2:4] is a valid slice — the operation
succeeds and returns a 2-byte slice instead of failing as the claim
demands for every count above 64. -/
theorem getLEDData_wrap_succeeds :
    64 < (6148914691236517206 : Int)
    ∧ int64wrap (6148914691236517206 * 3) = 2
    ∧ resultOf (GetLEDData okStick 6148914691236517206) = some ([1, 1], false)
    ∧ resultOf (GetLEDData okStick 6148914691236517206) ≠ none := by
  decide

/-- C7 (amended): GetLEDData allocates a response buffer of 2 + maxLEDs*3
bytes for the bucket selected from the (64-bit wrapped) product count*3;
for every count in [0, 64] it returns exactly the first count*3 payload
bytes after the 2-byte header.  For count above 64 or negative the
operation fails (slice-bounds abort, `none`) rather than reading outside
the buffer, provided the int64 computations count*3 and 2+count*3 do not
wrap; a count whose tripled value wraps back into the buffer bounds
succeeds with a short slice instead. -/
theorem getLEDData_bounds (stk : BlinkStick) (count : Int) :
    (0 ≤ count ∧ count ≤ 64 →
      resultOf (GetLEDData stk count) =
        some (((fillBuffer (2 + (getReportID (count * 3)).2 * 3)
            (stk.transport ⟨0xA0, 0x01, (getReportID (count * 3)).1, 0x00,
              List.replicate (2 + (getReportID (count * 3)).2 * 3) 0⟩).buf).drop 2).take
            (count * 3).toNat,
          (stk.transport ⟨0xA0, 0x01, (getReportID (count * 3)).1, 0x00,
            List.replicate (2 + (getReportID (count * 3)).2 * 3) 0⟩).err)
      ∧ ∀ bytes err, resultOf (GetLEDData stk count) = some (bytes, err) →
          bytes.length = (count * 3).toNat)
    ∧ (((64 < count ∧ count * 3 ≤ 2 ^ 63 - 3) ∨ (count < 0 ∧ -(2 ^ 63) ≤ count * 3)) →
        resultOf (GetLEDData stk count) = none) := by
  constructor
  · rintro ⟨h0, h64⟩
    have e3 : int64wrap (count * 3) = count * 3 :=
      int64wrap_eq (by omega) (by omega)
    have ehi : int64wrap (2 + count * 3) = 2 + count * 3 :=
      int64wrap_eq (by omega) (by omega)
    have hfit : 2 + count * 3 ≤ ((2 + (getReportID (count * 3)).2 * 3 : Nat) : Int) := by
      unfold getReportID
      split_ifs <;> simp only <;> omega
    have hres : resultOf (GetLEDData stk count) =
        some (((fillBuffer (2 + (getReportID (count * 3)).2 * 3)
            (stk.transport ⟨0xA0, 0x01, (getReportID (count * 3)).1, 0x00,
              List.replicate (2 + (getReportID (count * 3)).2 * 3) 0⟩).buf).drop 2).take
            (count * 3).toNat,
          (stk.transport ⟨0xA0, 0x01, (getReportID (count * 3)).1, 0x00,
            List.replicate (2 + (getReportID (count * 3)).2 * 3) 0⟩).err) := by
      simp only [GetLEDData, resultOf]
      rw [e3, ehi]
      rw [if_pos ⟨by omega, hfit⟩]
      have e2 : (2 + count * 3 - 2 : Int) = count * 3 := by omega
      rw [e2]
      rfl
    refine ⟨hres, ?_⟩
    intro bytes err heq
    rw [hres] at heq
    simp only [Option.some.injEq, Prod.mk.injEq] at heq
    rw [← heq.1]
    have hle : (count * 3).toNat ≤ (getReportID (count * 3)).2 * 3 := by
      unfold getReportID
      split_ifs <;> simp only <;> omega
    simp only [List.length_take, List.length_drop, fillBuffer_length]
    omega
  · intro hbad
    have e3 : int64wrap (count * 3) = count * 3 := by
      rcases hbad with ⟨hgt, hle'⟩ | ⟨hneg, hge⟩
      · exact int64wrap_eq (by omega) (by omega)
      · exact int64wrap_eq (by omega) (by omega)
    have ehi : int64wrap (2 + count * 3) = 2 + count * 3 := by
      rcases hbad with ⟨hgt, hle'⟩ | ⟨hneg, hge⟩
      · exact int64wrap_eq (by omega) (by omega)
      · exact int64wrap_eq (by omega) (by omega)
    have hng : ¬ (2 ≤ 2 + count * 3 ∧
        2 + count * 3 ≤ ((2 + (getReportID (count * 3)).2 * 3 : Nat) : Int)) := by
      rcases hbad with ⟨hgt, -⟩ | ⟨hneg, -⟩
      · have h9 : getReportID (count * 3) = (9, 64) := by
          unfold getReportID
          split_ifs <;> first | omega | rfl
        rw [h9]
        simp only
        omega
      · omega
    simp only [GetLEDData, resultOf]
    rw [e3, ehi, if_neg hng]

/-- Witness for C7's amended theorem: with the succeeding transport, a
request for 65 LEDs (no wrap involved) aborts. -/
theorem getLEDData_bounds_witness :
    resultOf (GetLEDData okStick 65) = none :=
  (getLEDData_bounds okStick 65).2 (Or.inl ⟨by decide, by decide⟩)

/-- C8: on an unqueried handle, GetLEDCount returns the sentinel -1
exactly when the transfer errors or moves fewer than 2 bytes; such a
failure leaves the state unchanged, so the next call reissues the
transfer. -/
theorem ledCount_failure (stk : BlinkStick) (h0 : stk.ledCount = 0) :
    (resultOf (GetLEDCount stk) = -1 ↔
      ((stk.transport ⟨0xA0, 0x01, 0x81, 0x00, List.replicate 2 0⟩).err = true
        ∨ (stk.transport ⟨0xA0, 0x01, 0x81, 0x00, List.replicate 2 0⟩).n < 2))
    ∧ (((stk.transport ⟨0xA0, 0x01, 0x81, 0x00, List.replicate 2 0⟩).err = true
        ∨ (stk.transport ⟨0xA0, 0x01, 0x81, 0x00, List.replicate 2 0⟩).n < 2) →
      stateOf (GetLEDCount stk) = stk
      ∧ traceOf (GetLEDCount (stateOf (GetLEDCount stk))) =
          [⟨0xA0, 0x01, 0x81, 0x00, List.replicate 2 0⟩]) := by
  constructor
  · simp only [GetLEDCount, resultOf, if_pos h0]
    split_ifs with hf
    · exact ⟨fun _ => hf, fun _ => rfl⟩
    · exact ⟨fun habs => habs.elim, fun hc => absurd hc hf⟩
  · intro hc
    have hc' : (stk.transport ⟨0x80 ||| 0x20, 0x01, 0x81, 0x00, List.replicate 2 0⟩).err = true
        ∨ (stk.transport ⟨0x80 ||| 0x20, 0x01, 0x81, 0x00, List.replicate 2 0⟩).n < 2 := hc
    have hstate : stateOf (GetLEDCount stk) = stk := by
      simp only [GetLEDCount, stateOf, if_pos h0]
      rw [if_pos hc']
    refine ⟨hstate, ?_⟩
    rw [hstate]
    simp only [GetLEDCount, traceOf, if_pos h0]
    split <;> rfl

/-- Witness for C8: over the failing transport the sentinel is returned. -/
theorem ledCount_failure_witness :
    resultOf (GetLEDCount errStick) = -1 :=
  (ledCount_failure errStick rfl).1.mpr (Or.inl rfl)

/-- C9: over a transport that always errors, GetName and GetInfo swallow
the failure and return the empty string, while SetName, SetInfo, SetRGB,
SetRandom, SetAllRGB, SetLEDData and GetLEDData all propagate the
transport's error flag to the caller unmodified. -/
theorem error_swallowing (stk : BlinkStick)
    (h : ∀ req, (stk.transport req).err = true)
    (name info data : List Nat) (channel index r g b rColor : Nat) (count : Int) :
    resultOf (GetName stk) = []
    ∧ resultOf (GetInfo stk) = []
    ∧ resultOf (SetName stk name) = true
    ∧ resultOf (SetInfo stk info) = true
    ∧ resultOf (SetRGB stk channel index r g b) = true
    ∧ resultOf (SetRandom stk channel index rColor) = true
    ∧ resultOf (SetAllRGB stk channel r g b) = true
    ∧ resultOf (SetLEDData stk channel data) = true
    ∧ (∀ bytes err, resultOf (GetLEDData stk count) = some (bytes, err) → err = true) := by
  refine ⟨?_, ?_, h _, h _, ?_, ?_, ?_, h _, ?_⟩
  · simp [GetName, resultOf, h]
  · simp [GetInfo, resultOf, h]
  · simp only [SetRGB]
    split <;> exact h _
  · simp only [SetRandom, SetRGB]
    split <;> exact h _
  · simp only [SetAllRGB]
    split_ifs with hcase
    · simp only [resultOf, SetRGB]
      split <;>
        · simp only [control]
          rw [GetLEDCount_transport]
          exact h _
    · simp only [resultOf, SetLEDData, control]
      rw [GetLEDCount_transport]
      exact h _
  · intro bytes err heq
    simp only [GetLEDData, resultOf] at heq
    split at heq
    · simp only [Option.some.injEq, Prod.mk.injEq] at heq
      rw [← heq.2]
      exact h _
    · exact absurd heq (by simp)

/-- Witness for C9 over the failing transport. -/
theorem error_swallowing_witness :
    resultOf (SetAllRGB errStick 0 1 2 3) = true :=
  (error_swallowing errStick (fun _ => rfl) [] [] [] 0 0 1 2 3 4 5).2.2.2.2.2.2.1

/-- C10: on a successful transfer, GetName and GetInfo return the full
33-byte response buffer with one zero byte appended — a 34-byte string
that always contains a null byte, with no truncation at an interior
terminator. -/
theorem getName_full_buffer (stk : BlinkStick)
    (hn : (stk.transport ⟨0xA0, 0x01, 0x02, 0x00, List.replicate 33 0⟩).err = false)
    (hi : (stk.transport ⟨0xA0, 0x01, 0x03, 0x00, List.replicate 33 0⟩).err = false) :
    resultOf (GetName stk) =
      fillBuffer 33 (stk.transport ⟨0xA0, 0x01, 0x02, 0x00, List.replicate 33 0⟩).buf ++ [0]
    ∧ (resultOf (GetName stk)).length = 34
    ∧ (0 : Nat) ∈ resultOf (GetName stk)
    ∧ resultOf (GetInfo stk) =
      fillBuffer 33 (stk.transport ⟨0xA0, 0x01, 0x03, 0x00, List.replicate 33 0⟩).buf ++ [0]
    ∧ (resultOf (GetInfo stk)).length = 34
    ∧ (0 : Nat) ∈ resultOf (GetInfo stk) := by
  have hn' : (stk.transport ⟨0x80 ||| 0x20, 0x01, 0x02, 0x00, List.replicate 33 0⟩).err
      = false := hn
  have hi' : (stk.transport ⟨0x80 ||| 0x20, 0x01, 0x03, 0x00, List.replicate 33 0⟩).err
      = false := hi
  have e1 : resultOf (GetName stk) =
      fillBuffer 33 (stk.transport ⟨0xA0, 0x01, 0x02, 0x00, List.replicate 33 0⟩).buf
        ++ [0] := by
    simp only [GetName, resultOf]
    split_ifs with hcond
    · rw [hn'] at hcond
      exact Bool.noConfusion hcond
    · rfl
  have e2 : resultOf (GetInfo stk) =
      fillBuffer 33 (stk.transport ⟨0xA0, 0x01, 0x03, 0x00, List.replicate 33 0⟩).buf
        ++ [0] := by
    simp only [GetInfo, resultOf]
    split_ifs with hcond
    · rw [hi'] at hcond
      exact Bool.noConfusion hcond
    · rfl
  refine ⟨e1, ?_, ?_, e2, ?_, ?_⟩
  · rw [e1]
    simp [fillBuffer_length]
  · rw [e1]
    simp
  · rw [e2]
    simp [fillBuffer_length]
  · rw [e2]
    simp

/-- Witness for C10 over the succeeding transport. -/
theorem getName_full_buffer_witness :
    (resultOf (GetName okStick)).length = 34 :=
  (getName_full_buffer okStick rfl rfl).2.1

end BlinkStickGo
